import Mathlib

/-!
Shallow embedding of the vision-ai-pro telemetry API.

The definitions below are translated from the repository sources:
`src/vision-ai-pro/api/index.js` (the canonical handler set),
`src/vision-ai-pro/api/server.js` (which adds the eviction timer in
`POST /api/session/end`), and the older draft `src/unnamed/part_000`
(whose detection/interaction handlers differ and are embedded
separately).  Timestamps are milliseconds since the epoch.
-/

namespace VisionAI

/-- JavaScript request-body value for the numeric fields `faceCount` and
`objectCount`: a number (we model integral numbers), a string, or absent
(`undefined`). -/
inductive JVal where
  | num (n : Int)
  | str (s : String)
  | undef
deriving DecidableEq

/-- Value of a leading digit run; `none` when the list does not start with
a digit (the accumulator is `none` until a first digit is seen). -/
def digitsVal : List Char → Option Nat → Option Nat
  | [], acc => acc
  | c :: cs, acc =>
    if c.isDigit then digitsVal cs (some ((acc.getD 0) * 10 + (c.toNat - 48)))
    else acc

/-- JS `parseInt` on a string: optional sign, then a leading digit run;
trailing characters are ignored; `none` models `NaN`.  (Whitespace
trimming and radix arguments are not exercised by this code base.) -/
def parseIntStr (s : String) : Option Int :=
  match s.data with
  | '-' :: cs => (digitsVal cs none).map (fun n => -(n : Int))
  | '+' :: cs => (digitsVal cs none).map (fun n => (n : Int))
  | cs => (digitsVal cs none).map (fun n => (n : Int))

/-- JS `parseInt(v)` on a body value: integral numbers pass through,
strings are parsed, `undefined` gives `NaN` (`none`). -/
def parseIntJ : JVal → Option Int
  | .num n => some n
  | .str s => parseIntStr s
  | .undef => none

/-- Model of `parseInt(v) || 0` in index.js: `NaN` is replaced by `0`; any
nonzero integer, including a negative one, passes through (`0 || 0` is
also `0`, so this is exactly `getD 0`). -/
def parseIntOr0 (v : JVal) : Int := (parseIntJ v).getD 0

/-- ES6 destructuring default `faceCount = 0`: `undefined` becomes the
number `0` before `parseInt` is applied. -/
def withDefault0 : JVal → JVal
  | .undef => .num 0
  | v => v

/-- One session record, as created by `POST /api/session/start`.  The
detection counters are `Int` because the handlers add the parsed deltas
with no clamping, and a parsed delta can be negative. -/
structure Session where
  sessionId : String
  startTime : Nat
  faceDetections : Int
  objectDetections : Int
  interactions : Nat
  filters : List String
  lastActivity : Nat
  endTime : Option Nat := none
  duration : Option Nat := none
deriving DecidableEq

/-- Module-level `stats` object: the global counters plus the session
`Map`, modelled as an insertion-ordered association list (matching `Map`
iteration order). -/
structure Stats where
  totalSessions : Nat
  totalDetections : Int
  totalFaceDetections : Int
  totalInteractions : Nat
  sessions : List (String × Session)
  serverStartTime : Nat
  lastUpdated : Nat
deriving DecidableEq

/-- Fresh `stats` object as initialized at module load. -/
def statsInit : Stats :=
  { totalSessions := 0, totalDetections := 0, totalFaceDetections := 0,
    totalInteractions := 0, sessions := [], serverStartTime := 0,
    lastUpdated := 0 }

/-- Lookup in an insertion-ordered association list (first occurrence). -/
def assocGet {α : Type} (m : List (String × α)) (k : String) : Option α :=
  match m with
  | [] => none
  | e :: t => if e.1 == k then some e.2 else assocGet t k

/-- Update in place when the key exists (keeping iteration order), append
at the end otherwise: exactly the JS `Map.set` behaviour. -/
def assocSet {α : Type} (m : List (String × α)) (k : String) (v : α) :
    List (String × α) :=
  match m with
  | [] => [(k, v)]
  | e :: t => if e.1 == k then (k, v) :: t else e :: assocSet t k v

/-- Removal of a key: JS `Map.delete`. -/
def assocDelete {α : Type} (m : List (String × α)) (k : String) :
    List (String × α) :=
  match m with
  | [] => []
  | e :: t => if e.1 == k then assocDelete t k else e :: assocDelete t k

/-- Membership of a key: JS `Map.has`. -/
def assocHas {α : Type} (m : List (String × α)) (k : String) : Bool :=
  match m with
  | [] => false
  | e :: t => if e.1 == k then true else assocHas t k

/-- JS `Map.has` on the session store. -/
def mapHas (m : List (String × Session)) (k : String) : Bool :=
  assocHas m k

/-- JS `Map.get` on the session store. -/
def mapGet (m : List (String × Session)) (k : String) : Option Session :=
  assocGet m k

/-- JS `Map.set` on the session store (the handlers mutate the object held
in the `Map`, which is `set` of an existing key: iteration order is
unchanged; `session/start` sets a fresh key, which appends). -/
def mapSet (m : List (String × Session)) (k : String) (v : Session) :
    List (String × Session) :=
  assocSet m k v

/-- JS `Map.delete` on the session store. -/
def mapDelete (m : List (String × Session)) (k : String) :
    List (String × Session) :=
  assocDelete m k

/-- Function `validateSession` of index.js (lines 105-107): membership of
the id in the session store — the closed/open state is not consulted. -/
def validateSession (st : Stats) (sid : String) : Bool :=
  mapHas st.sessions sid

/-- Log directory for the size/rotation model: file name to size in bytes.
Only sizes are observable to `logToFile` (through `statSync(...).size`). -/
abbrev LogDir := List (String × Nat)

/-- Size lookup, `none` when `existsSync` is false. -/
def dirSize (d : LogDir) (name : String) : Option Nat :=
  assocGet d name

/-- Create or overwrite a file of the given size. -/
def dirSet (d : LogDir) (name : String) (sz : Nat) : LogDir :=
  assocSet d name sz

/-- Remove a file (the source side of `renameSync`). -/
def dirRemove (d : LogDir) (name : String) : LogDir :=
  assocDelete d name

/-- Constant `MAX_LOG_FILE_SIZE` (10 MiB) of index.js and server.js. -/
def MAX_LOG_FILE_SIZE : Nat := 10 * 1024 * 1024

/-- Side conditions of a `logToFile` call that the handler does not
control: whether the append succeeds, the UTC date string used in the file
name, and the byte size of the serialized entry (JSON serialization itself
is not modelled; only the size of the entry is observable through the file
system). -/
structure LogCtx where
  writeOk : Bool
  dateStr : String
  entrySize : Nat
deriving DecidableEq

/-- Function `logToFile` of index.js (lines 72-103): when the target file
exists and its size strictly exceeds `MAX_LOG_FILE_SIZE`, rename it to the
timestamped `.log.backup` name; then append the entry (creating the file
when absent).  Every I/O failure is caught inside the function and turned
into a `false` return value — a failing append leaves the directory as it
was after the (already performed) rotation check.  Returns the JS return
value and the resulting directory. -/
def logToFile (ctx : LogCtx) (now : Nat) (eventType : String)
    (d : LogDir) : Bool × LogDir :=
  let logFileName := eventType ++ "_" ++ ctx.dateStr ++ ".log"
  let d1 :=
    match dirSize d logFileName with
    | some sz =>
      if MAX_LOG_FILE_SIZE < sz then
        let backupName :=
          eventType ++ "_" ++ ctx.dateStr ++ "_" ++ toString now ++
            ".log.backup"
        dirSet (dirRemove d logFileName) backupName sz
      else d
    | none => d
  if ctx.writeOk then
    (true,
      dirSet d1 logFileName ((dirSize d1 logFileName).getD 0 + ctx.entrySize))
  else (false, d1)

/-- Response of `POST /api/detection/record`, keeping the fields the
claims talk about.  `badRequest` is the 400 response, `notFound` the 404;
`ok` carries `sessionStats` and `globalStats`. -/
inductive DetResult where
  | badRequest
  | notFound
  | ok (faceDetections objectDetections totalDetections gFace gTotal : Int)
deriving DecidableEq

/-- Response of `POST /api/interaction/record`. -/
inductive IntResult where
  | badRequest
  | notFound
  | ok (totalInteractionsInSession : Nat) (filters : List String)
deriving DecidableEq

/-- Response of `POST /api/session/end`. -/
inductive EndResult where
  | badRequest
  | notFound
  | ok (faceDetections objectDetections : Int) (interactions : Nat)
       (duration : Nat) (filters : List String)
deriving DecidableEq

/-- Body of `POST /api/detection/record`.  `sessionId` is `none` when the
field is absent; JS falsiness also treats the empty string as missing, and
the handlers check both. -/
structure DetBody where
  sessionId : Option String
  faceCount : JVal := .undef
  objectCount : JVal := .undef
deriving DecidableEq

/-- Body of `POST /api/interaction/record` (the `action` field is never
consulted by the handler logic and is omitted). -/
structure IntBody where
  sessionId : Option String
  widgetName : Option String := none
  value : Option String := none
deriving DecidableEq

/-- Handler of `POST /api/session/start` (index.js lines 149-193): the
generated id is `session_<Date.now()>_<random>`; the random suffix is an
oracle parameter.  Returns the new id, the mutated state, and the log
directory after the `SESSION_START` append. -/
def sessionStart (ctx : LogCtx) (now : Nat) (rand : String)
    (st : Stats) (d : LogDir) : String × Stats × LogDir :=
  let sessionId := "session_" ++ toString now ++ "_" ++ rand
  let sessionData : Session :=
    { sessionId := sessionId, startTime := now, faceDetections := 0,
      objectDetections := 0, interactions := 0, filters := [],
      lastActivity := now }
  let st' := { st with
    sessions := mapSet st.sessions sessionId sessionData,
    totalSessions := st.totalSessions + 1,
    lastUpdated := now }
  (sessionId, st', (logToFile ctx now "SESSION_START" d).2)

/-- Handler of `POST /api/detection/record` (index.js lines 196-259): 400
when `sessionId` is falsy, 404 when the id is not in the store (that is
the whole `validateSession` check — the closed state is not consulted),
otherwise the `parseInt(x) || 0` deltas are added to the session and to
the global counters, and the event is logged. -/
def recordDetection (ctx : LogCtx) (now : Nat) (body : DetBody)
    (st : Stats) (d : LogDir) : DetResult × Stats × LogDir :=
  match body.sessionId with
  | none => (.badRequest, st, d)
  | some sid =>
    if sid == "" then (.badRequest, st, d)
    else
      match mapGet st.sessions sid with
      | none => (.notFound, st, d)
      | some session =>
        let faceNum := parseIntOr0 (withDefault0 body.faceCount)
        let objectNum := parseIntOr0 (withDefault0 body.objectCount)
        let session' := { session with
          faceDetections := session.faceDetections + faceNum,
          objectDetections := session.objectDetections + objectNum,
          lastActivity := now }
        let st' := { st with
          sessions := mapSet st.sessions sid session',
          totalFaceDetections := st.totalFaceDetections + faceNum,
          totalDetections := st.totalDetections + faceNum + objectNum,
          lastUpdated := now }
        (.ok session'.faceDetections session'.objectDetections
          (session'.faceDetections + session'.objectDetections)
          st'.totalFaceDetections st'.totalDetections, st',
          (logToFile ctx now "DETECTION_RECORD" d).2)

/-- Handler of `POST /api/interaction/record` (index.js lines 262-317):
same validation; increments the interaction counters; appends `value` to
the filter list exactly when `widgetName === "filterSelect"`, `value` is
truthy (present and non-empty) and not already in the list. -/
def recordInteraction (ctx : LogCtx) (now : Nat) (body : IntBody)
    (st : Stats) (d : LogDir) : IntResult × Stats × LogDir :=
  match body.sessionId with
  | none => (.badRequest, st, d)
  | some sid =>
    if sid == "" then (.badRequest, st, d)
    else
      match mapGet st.sessions sid with
      | none => (.notFound, st, d)
      | some session =>
        let filters' :=
          match body.value with
          | some v =>
            if body.widgetName == some "filterSelect" && v != "" &&
                !(session.filters.contains v) then
              session.filters ++ [v]
            else session.filters
          | none => session.filters
        let session' := { session with
          interactions := session.interactions + 1,
          lastActivity := now,
          filters := filters' }
        let st' := { st with
          sessions := mapSet st.sessions sid session',
          totalInteractions := st.totalInteractions + 1,
          lastUpdated := now }
        (.ok session'.interactions session'.filters, st',
          (logToFile ctx now "INTERACTION_RECORD" d).2)

/-- JS `Math.round((endTime - startTime) / 1000)` on a nonnegative
millisecond difference. -/
def roundDivMs (diff : Nat) : Nat := (diff + 500) / 1000

/-- Handler of `POST /api/session/end` (index.js lines 320-378): same
validation; sets `endTime`, computes `duration`, updates `lastActivity`
and `lastUpdated`, logs, and returns the summary. -/
def endSession (ctx : LogCtx) (now : Nat) (body : Option String)
    (st : Stats) (d : LogDir) : EndResult × Stats × LogDir :=
  match body with
  | none => (.badRequest, st, d)
  | some sid =>
    if sid == "" then (.badRequest, st, d)
    else
      match mapGet st.sessions sid with
      | none => (.notFound, st, d)
      | some session =>
        let dur := roundDivMs (now - session.startTime)
        let session' := { session with
          endTime := some now, duration := some dur, lastActivity := now }
        let st' := { st with
          sessions := mapSet st.sessions sid session',
          lastUpdated := now }
        (.ok session'.faceDetections session'.objectDetections
          session'.interactions dur session'.filters, st',
          (logToFile ctx now "SESSION_END" d).2)

/-- Retention delay of the eviction `setTimeout` registered by the
server.js `session/end` handler: 60000 ms. -/
def RETENTION_MS : Nat := 60000

/-- Handler of `POST /api/session/end` in server.js (lines 448-509): the
state mutation is identical to the index.js handler (the response payload
differs only in formatting); in addition it registers a one-shot eviction
timer `(sessionId, now + 60000)`, returned here as the fourth component
(`none` on the error paths, where no timer is registered). -/
def endSessionSrv (ctx : LogCtx) (now : Nat) (body : Option String)
    (st : Stats) (d : LogDir) :
    EndResult × Stats × LogDir × Option (String × Nat) :=
  match body with
  | none => (.badRequest, st, d, none)
  | some sid =>
    let (r, st', d') := endSession ctx now body st d
    match r with
    | .ok .. => (r, st', d', some (sid, now + RETENTION_MS))
    | _ => (r, st', d', none)

/-- Eviction timer callback of server.js (lines 497-499):
`stats.sessions.delete(sessionId)` — nothing else is touched. -/
def evict (sid : String) (st : Stats) : Stats :=
  { st with sessions := mapDelete st.sessions sid }

/-- Run every scheduled eviction whose delay has elapsed at `now` (a
`setTimeout` callback fires once its deadline has passed). -/
def processEvictions (now : Nat) (timers : List (String × Nat))
    (st : Stats) : Stats :=
  timers.foldl (fun s t => if t.2 ≤ now then evict t.1 s else s) st

/-- One entry of the `activeSessions` array in `GET /api/stats`. -/
structure ActiveView where
  sessionId : String
  startTime : Nat
  duration : Nat
  faceDetections : Int
  objectDetections : Int
  interactions : Nat
  filters : List String
  lastActivity : Nat
deriving DecidableEq

/-- JS `Math.round(a / b)` for natural `a` and positive natural `b`
(`Math.round x = ⌊x + 1/2⌋`). -/
def natRoundDiv (a b : Nat) : Nat := (2 * a + b) / (2 * b)

/-- JS `Math.round(a / b)` where the numerator may be negative: floor
division of `2a + b` by `2b`. -/
def intRoundDiv (a : Int) (b : Nat) : Int := Int.fdiv (2 * a + b) (2 * b)

/-- Observable part of the `GET /api/stats` response: the `statistics`
block plus the `activeSessions` array. -/
structure StatsView where
  totalSessions : Nat
  activeSessionsCount : Nat
  totalDetections : Int
  totalFaceDetections : Int
  totalInteractions : Nat
  avgDetectionsPerSession : Int
  avgDuration : Nat
  activeSessions : List ActiveView
deriving DecidableEq

/-- Handler of `GET /api/stats` (index.js lines 381-436).  `avgDuration`
is the numeric part of the `"${avgDuration}s"` string: the sum of
`duration || 0` over the *active* sessions (those with `endTime` unset)
divided by `totalSessions` and rounded, or 0 when `totalSessions` is 0. -/
def getStats (now : Nat) (st : Stats) : StatsView :=
  let actives := (st.sessions.map (·.2)).filter (fun s => s.endTime == none)
  { totalSessions := st.totalSessions
    activeSessionsCount := actives.length
    totalDetections := st.totalDetections
    totalFaceDetections := st.totalFaceDetections
    totalInteractions := st.totalInteractions
    avgDetectionsPerSession :=
      if 0 < st.totalSessions then
        intRoundDiv st.totalDetections st.totalSessions
      else 0
    avgDuration :=
      if 0 < st.totalSessions then
        natRoundDiv (actives.foldl (fun acc s => acc + s.duration.getD 0) 0)
          st.totalSessions
      else 0
    activeSessions := actives.map (fun s =>
      { sessionId := s.sessionId, startTime := s.startTime,
        duration := roundDivMs (now - s.startTime),
        faceDetections := s.faceDetections,
        objectDetections := s.objectDetections,
        interactions := s.interactions, filters := s.filters,
        lastActivity := s.lastActivity }) }

/-- Modelled from the spec: `avgDurationOfClosedSessions` — the rounded
average of the `duration` values of the sessions whose `endTime` is set.
No such computation exists under src/; this definition follows the words
of the spec and is only used for the refinement comparison of claim C6. -/
def specAvgDurationOfClosedSessions (st : Stats) : Nat :=
  let closed := (st.sessions.map (·.2)).filter (fun s => s.endTime != none)
  if 0 < closed.length then
    natRoundDiv (closed.foldl (fun acc s => acc + s.duration.getD 0) 0)
      closed.length
  else 0

/-- Response of `POST /api/detection/record` in the src/unnamed/part_000
draft: that handler has no 404 path at all. -/
inductive P0DetResult where
  | badRequest
  | ok (totalDetectionsInSession : Int)
deriving DecidableEq

/-- Handler of `POST /api/detection/record` in src/unnamed/part_000
(lines 188-223): 400 on a falsy `sessionId`; an unknown session mutates
nothing but still receives a 200 `success: true` response whose
`totalDetectionsInSession` is `session?.objectDetections || 0`, i.e. 0.
The deltas are `faceCount || 0` on the (numeric) payload values. -/
def part000RecordDetection (now : Nat) (sessionId : Option String)
    (faceCount objectCount : Option Int) (st : Stats) :
    P0DetResult × Stats :=
  match sessionId with
  | none => (.badRequest, st)
  | some sid =>
    if sid == "" then (.badRequest, st)
    else
      match mapGet st.sessions sid with
      | some session =>
        let f := (faceCount.getD 0)
        let o := (objectCount.getD 0)
        let session' := { session with
          faceDetections := session.faceDetections + f,
          objectDetections := session.objectDetections + o }
        let st' := { st with
          sessions := mapSet st.sessions sid session',
          totalFaceDetections := st.totalFaceDetections + f,
          totalDetections := st.totalDetections + f + o,
          lastUpdated := now }
        (.ok session'.objectDetections, st')
      | none => (.ok 0, st)

/-- Response of `POST /api/interaction/record` in part_000. -/
inductive P0IntResult where
  | badRequest
  | ok (totalInteractionsInSession : Nat)
deriving DecidableEq

/-- Handler of `POST /api/interaction/record` in src/unnamed/part_000
(lines 226-264): unknown sessions again get `success` with no mutation;
the filter push (lines 240-244) checks only
`widgetName === "filterSelect"` and non-membership — there is no
truthiness check on `value`, so an empty value is appended.  We model a
string-valued `value` field (an absent field would likewise append the
undefined value). -/
def part000RecordInteraction (now : Nat) (sessionId : Option String)
    (widgetName : Option String) (value : String) (st : Stats) :
    P0IntResult × Stats :=
  match sessionId with
  | none => (.badRequest, st)
  | some sid =>
    if sid == "" then (.badRequest, st)
    else
      match mapGet st.sessions sid with
      | some session =>
        let filters' :=
          if widgetName == some "filterSelect" &&
              !(session.filters.contains value) then
            session.filters ++ [value]
          else session.filters
        let session' := { session with
          interactions := session.interactions + 1, filters := filters' }
        let st' := { st with
          sessions := mapSet st.sessions sid session',
          totalInteractions := st.totalInteractions + 1,
          lastUpdated := now }
        (.ok session'.interactions, st')
      | none => (.ok 0, st)

/-- Resolved log root of index.js: `LOGS_DIR = path.join("/tmp", "logs")`;
`path.resolve(LOGS_DIR)` is the same string. -/
def LOGS_DIR : String := "/tmp/logs"

/-- Split a character list at every occurrence of the separator. -/
def splitOnChar (c : Char) : List Char → List (List Char)
  | [] => [[]]
  | x :: xs =>
    match splitOnChar c xs with
    | [] => [[x]]
    | y :: ys => if x == c then [] :: y :: ys else (x :: y) :: ys

/-- ASCII whitespace, as relevant to the JS `trim` on log content. -/
def isWsp (c : Char) : Bool :=
  c == ' ' || c == '\t' || c == '\n' || c == '\r'

/-- JS `String.prototype.trim`. -/
def jsTrim (s : String) : String :=
  String.mk (((s.data.dropWhile isWsp).reverse.dropWhile isWsp).reverse)

/-- Nonempty segments of a path string. -/
def splitSegs (s : String) : List String :=
  ((splitOnChar '/' s.data).map String.mk).filter (fun seg => seg != "")

/-- One step of the Node path normalization: `.` is dropped, `..` pops
the last segment (and is dropped at the root of an absolute path), any
other segment is pushed. -/
def normStep (acc : List String) (seg : String) : List String :=
  if seg == "." then acc
  else if seg == ".." then acc.dropLast
  else acc ++ [seg]

/-- Render an absolute path from its segments. -/
def renderAbs (segs : List String) : String :=
  segs.foldl (fun acc seg => acc ++ "/" ++ seg) ""

/-- Node `path.join(a, b)` for an absolute `a`: concatenate the segments
of both arguments and normalize.  A second argument starting with `/` is
not special — its segments are simply appended under `a`. -/
def pathJoin (a b : String) : String :=
  renderAbs ((splitSegs a ++ splitSegs b).foldl normStep [])

/-- JS `String.prototype.startsWith`. -/
def jsStartsWith (s pre : String) : Bool :=
  List.isPrefixOf pre.data s.data

/-- JS `String.prototype.endsWith`. -/
def jsEndsWith (s post : String) : Bool :=
  List.isPrefixOf post.data.reverse s.data.reverse

/-- File system seen by the log reading endpoints: absolute path to file
content. -/
abbrev FileSys := List (String × String)

/-- Content lookup; `none` models `existsSync(p) === false`. -/
def fsRead (fs : FileSys) (p : String) : Option String :=
  assocGet fs p

/-- Result of `GET /api/logs/:logFile`: 403, 404, or the parsed content
(`totalLines` and the line list). -/
inductive ReadResult where
  | denied
  | notFound
  | ok (totalLines : Nat) (content : List String)
deriving DecidableEq

/-- Handler of `GET /api/logs/:logFile` (index.js lines 488-534).  The
argument is the decoded route parameter.  The traversal guard is a plain
string-prefix test of the joined path against the resolved root
(line 495).  A missing file or a name that does not end in `.log` yields
404.  The per-line `JSON.parse`-or-raw display transform of the body is
modelled as the raw line list. -/
def readLogFile (fs : FileSys) (logFile : String) : ReadResult :=
  let logPath := pathJoin LOGS_DIR logFile
  if !(jsStartsWith logPath LOGS_DIR) then .denied
  else
    match fsRead fs logPath with
    | none => .notFound
    | some content =>
      if !(jsEndsWith logFile ".log") then .notFound
      else
        let lines := ((splitOnChar '\n' (jsTrim content).data).map
          String.mk).filter (fun l => jsTrim l != "")
        .ok lines.length lines

/-- Model of `readdirSync(LOGS_DIR)`: the bare names of the files directly
under the log root. -/
def readdirLogs (fs : FileSys) : List String :=
  fs.filterMap (fun e =>
    let pre := LOGS_DIR ++ "/"
    if List.isPrefixOf pre.data e.1.data then
      let rest := e.1.data.drop pre.data.length
      if rest.contains '/' then none else some (String.mk rest)
    else none)

/-- File names exposed by `GET /api/logs` (index.js lines 439-485): the
directory entries filtered to names ending in `.log` (line 451).  The
endpoint also annotates each entry with size and mtime and sorts by mtime;
no claim concerns those, so the membership of the name list is what is
modelled. -/
def listLogs (fs : FileSys) : List String :=
  (readdirLogs fs).filter (fun name => jsEndsWith name ".log")

/-- Projection of the interaction counter out of an interaction response
(`none` on the error responses). -/
def IntResult.count? : IntResult → Option Nat
  | .ok n _ => some n
  | _ => none

/-- Shared concrete fixture: the log context used in concrete runs. -/
def ctxD : LogCtx := ⟨true, "d", 1⟩

/-- Shared concrete fixture: state after one `session/start` at time 0
(the generated id is `session_0_r`). -/
def stOpen : Stats := (sessionStart ctxD 0 "r" statsInit []).2.1

/-- Shared concrete fixture: the same session closed at time 5000. -/
def stClosed : Stats :=
  (endSession ctxD 5000 (some "session_0_r") stOpen []).2.1

/-- Concrete log directory holding one rotated backup file under the log
root. -/
def fsC10 : FileSys :=
  [("/tmp/logs/DETECTION_RECORD_2025-01-01_5.log.backup", "x")]

lemma assocGet_assocSet_self {α : Type} (m : List (String × α))
    (k : String) (v : α) : assocGet (assocSet m k v) k = some v := by
  induction m with
  | nil => simp [assocGet, assocSet]
  | cons e t ih =>
    by_cases he : e.1 = k
    · simp [assocGet, assocSet, he]
    · simpa [assocGet, assocSet, he] using ih

lemma assocGet_assocSet_ne {α : Type} (m : List (String × α))
    (k k' : String) (v : α) (h : k' ≠ k) :
    assocGet (assocSet m k v) k' = assocGet m k' := by
  induction m with
  | nil => simp [assocGet, assocSet, Ne.symm h]
  | cons e t ih =>
    by_cases he : e.1 = k
    · simp [assocGet, assocSet, he, Ne.symm h]
    · by_cases he' : e.1 = k'
      · simp [assocGet, assocSet, he, he', h]
      · simpa [assocGet, assocSet, he, he'] using ih

lemma assocHas_assocSet_of_has {α : Type} (m : List (String × α))
    (k x : String) (v : α) (h : assocHas m x = true) :
    assocHas (assocSet m k v) x = true := by
  induction m with
  | nil => simp [assocHas] at h
  | cons e t ih =>
    by_cases he : e.1 = k
    · by_cases hx : e.1 = x
      · simp [assocHas, assocSet, he, he ▸ hx]
      · rw [assocHas, if_neg (by simp [hx])] at h
        simp [assocHas, assocSet, he, show ¬ k = x from he ▸ hx, h]
    · by_cases hx : e.1 = x
      · simp [assocHas, assocSet, he, hx, show ¬ x = k from hx ▸ he]
      · rw [assocHas, if_neg (by simp [hx])] at h
        simp [assocHas, assocSet, he, hx, ih h]

lemma assocGet_assocDelete_self {α : Type} (m : List (String × α))
    (k : String) : assocGet (assocDelete m k) k = none := by
  induction m with
  | nil => rfl
  | cons e t ih =>
    by_cases he : e.1 = k
    · simpa [assocDelete, he] using ih
    · simpa [assocGet, assocDelete, he] using ih

lemma assocHas_assocDelete_self {α : Type} (m : List (String × α))
    (k : String) : assocHas (assocDelete m k) k = false := by
  induction m with
  | nil => rfl
  | cons e t ih =>
    by_cases he : e.1 = k
    · simpa [assocDelete, he] using ih
    · simpa [assocHas, assocDelete, he] using ih

lemma isPrefixOf_append_self (l t : List Char) :
    List.isPrefixOf l (l ++ t) = true := by
  induction l with
  | nil => simp [List.isPrefixOf]
  | cons a as ih => simp [List.isPrefixOf, ih]

lemma jsEndsWith_append (a t : String) : jsEndsWith (a ++ t) t = true := by
  unfold jsEndsWith
  rw [String.data_append, List.reverse_append]
  exact isPrefixOf_append_self _ _

lemma backup_excludes_log (s : String)
    (h : jsEndsWith s ".log.backup" = true) :
    jsEndsWith s ".log" = false := by
  unfold jsEndsWith at h ⊢
  rw [show (".log.backup" : String).data.reverse =
    ['p', 'u', 'k', 'c', 'a', 'b', '.', 'g', 'o', 'l', '.'] from rfl] at h
  rw [show (".log" : String).data.reverse = ['g', 'o', 'l', '.'] from rfl]
  cases hr : s.data.reverse with
  | nil => rw [hr] at h; simp [List.isPrefixOf] at h
  | cons c cs =>
    rw [hr] at h
    simp only [List.isPrefixOf, Bool.and_eq_true, beq_iff_eq] at h
    obtain ⟨hc, -⟩ := h
    simp [List.isPrefixOf, hc.symm]

lemma logName_ne_backupName (e ds tn : String) :
    e ++ "_" ++ ds ++ ".log" ≠ e ++ "_" ++ ds ++ "_" ++ tn ++ ".log.backup" := by
  intro h
  have h1 : jsEndsWith (e ++ "_" ++ ds ++ ".log") ".log" = true := by
    rw [show e ++ "_" ++ ds ++ ".log" = (e ++ "_" ++ ds) ++ ".log" from rfl]
    exact jsEndsWith_append _ _
  have h2 : jsEndsWith (e ++ "_" ++ ds ++ "_" ++ tn ++ ".log.backup")
      ".log.backup" = true := by
    rw [show e ++ "_" ++ ds ++ "_" ++ tn ++ ".log.backup" =
      (e ++ "_" ++ ds ++ "_" ++ tn) ++ ".log.backup" from rfl]
    exact jsEndsWith_append _ _
  rw [h] at h1
  rw [backup_excludes_log _ h2] at h1
  exact Bool.false_ne_true h1

/-- C1 counterexample: the claim states that a closed (ended, not yet
evicted) session is read-only.  In the code, `validateSession` checks only
membership of the id, so `detection/record` on the closed session
`session_0_r` (endTime = 5000, still in the store) changes its counters
from (0, 0) to (3, 4). -/
theorem c1_counterexample :
    (mapGet stClosed.sessions "session_0_r").map (fun s => s.endTime) =
      some (some 5000) ∧
    (mapGet stClosed.sessions "session_0_r").map
      (fun s => (s.faceDetections, s.objectDetections)) = some (0, 0) ∧
    (mapGet ((recordDetection ctxD 6000
        ⟨some "session_0_r", .num 3, .num 4⟩ stClosed []).2.1).sessions
      "session_0_r").map
      (fun s => (s.faceDetections, s.objectDetections)) = some (3, 4) := by
  decide

/-- C1 (amended): a session accepts detection/interaction mutations
whenever its id is present in the store — open or closed alike; closing a
session does not make it read-only, only eviction removes it from
mutation.  For any stored `session` (no assumption on `endTime`), the
detection handler answers `ok` with the incremented counters and writes
them back, and the interaction handler answers `ok` with the incremented
interaction counter. -/
theorem c1_mutation_requires_presence_only (ctx : LogCtx) (now : Nat)
    (st : Stats) (d : LogDir) (sid : String) (session : Session)
    (fc oc : JVal) (w v : Option String) (hsid : sid ≠ "")
    (hget : mapGet st.sessions sid = some session) :
    (recordDetection ctx now ⟨some sid, fc, oc⟩ st d).1 =
      .ok (session.faceDetections + parseIntOr0 (withDefault0 fc))
        (session.objectDetections + parseIntOr0 (withDefault0 oc))
        (session.faceDetections + parseIntOr0 (withDefault0 fc) +
          (session.objectDetections + parseIntOr0 (withDefault0 oc)))
        (st.totalFaceDetections + parseIntOr0 (withDefault0 fc))
        (st.totalDetections + parseIntOr0 (withDefault0 fc) +
          parseIntOr0 (withDefault0 oc)) ∧
    (mapGet (recordDetection ctx now ⟨some sid, fc, oc⟩ st d).2.1.sessions
        sid).map (fun s => s.faceDetections) =
      some (session.faceDetections + parseIntOr0 (withDefault0 fc)) ∧
    ((recordInteraction ctx now ⟨some sid, w, v⟩ st d).1).count? =
      some (session.interactions + 1) := by
  have hbe : (sid == "") = false := by simp [hsid]
  have hget' : assocGet st.sessions sid = some session := hget
  refine ⟨?_, ?_, ?_⟩
  · simp [recordDetection, hbe, hget, hget']
  · simp [recordDetection, hbe, hget, hget', mapGet, mapSet,
      assocGet_assocSet_self]
  · cases v <;>
      simp [recordInteraction, hbe, hget, hget', IntResult.count?]

/-- Witness for the C1 amended theorem at the concrete closed session. -/
theorem c1_witness :
    (recordDetection ctxD 6000 ⟨some "session_0_r", .num 3, .num 4⟩
      stClosed []).1 = .ok 3 4 7 3 7 ∧
    (mapGet (recordDetection ctxD 6000
        ⟨some "session_0_r", .num 3, .num 4⟩ stClosed []).2.1.sessions
      "session_0_r").map (fun s => s.faceDetections) = some 3 := by
  obtain ⟨h1, h2, -⟩ := c1_mutation_requires_presence_only ctxD 6000
    stClosed [] "session_0_r"
    { sessionId := "session_0_r", startTime := 0, faceDetections := 0,
      objectDetections := 0, interactions := 0, filters := [],
      lastActivity := 5000, endTime := some 5000, duration := some 5 }
    (.num 3) (.num 4) none none (by decide) (by decide)
  exact ⟨h1, h2⟩

/-- C2 counterexample: the claim states that every `detection/record`
with an unknown sessionId yields a 404.  The part_000 draft handler
(src/unnamed/part_000 lines 188-223, cited by the claim) has no 404 path:
an unknown session receives the 200 `success: true` response (with no
state mutation). -/
theorem c2_counterexample :
    part000RecordDetection 0 (some "nope") (some 3) (some 4) statsInit =
      (.ok 0, statsInit) := by
  decide

/-- C2 (amended): for the index.js / server.js handlers the claim holds
as stated: a missing (or empty, JS-falsy) `sessionId` gives the 400
response and an unknown one the 404 response, in each of
`detection/record`, `interaction/record` and `session/end`, with the
state, the log directory and the response untouched by any mutation.  The
part_000 draft instead answers 200 `success` with no mutation for an
unknown session. -/
theorem c2_validation_and_lookup_errors (ctx : LogCtx) (now : Nat)
    (st : Stats) (d : LogDir) (fc oc : JVal) (w v : Option String)
    (sid : String) :
    recordDetection ctx now ⟨none, fc, oc⟩ st d = (.badRequest, st, d) ∧
    recordDetection ctx now ⟨some "", fc, oc⟩ st d = (.badRequest, st, d) ∧
    recordInteraction ctx now ⟨none, w, v⟩ st d = (.badRequest, st, d) ∧
    recordInteraction ctx now ⟨some "", w, v⟩ st d =
      (.badRequest, st, d) ∧
    endSession ctx now none st d = (.badRequest, st, d) ∧
    endSession ctx now (some "") st d = (.badRequest, st, d) ∧
    (sid ≠ "" → mapGet st.sessions sid = none →
      recordDetection ctx now ⟨some sid, fc, oc⟩ st d =
        (.notFound, st, d) ∧
      recordInteraction ctx now ⟨some sid, w, v⟩ st d =
        (.notFound, st, d) ∧
      endSession ctx now (some sid) st d = (.notFound, st, d)) := by
  refine ⟨rfl, rfl, rfl, rfl, rfl, rfl, fun h1 h2 => ⟨?_, ?_, ?_⟩⟩ <;>
    simp [recordDetection, recordInteraction, endSession, h2,
      show (sid == "") = false by simp [h1],
      show assocGet st.sessions sid = none from h2]

/-- Witness for the C2 amended theorem: a missing id 400 case and an
unknown id 404 case at concrete inputs. -/
theorem c2_witness :
    recordDetection ctxD 0 ⟨none, .undef, .undef⟩ statsInit [] =
      (.badRequest, statsInit, []) ∧
    endSession ctxD 0 (some "x") statsInit [] =
      (.notFound, statsInit, []) := by
  have h := c2_validation_and_lookup_errors ctxD 0 statsInit [] .undef
    .undef none none "x"
  exact ⟨h.1, (h.2.2.2.2.2.2 (by decide) (by decide)).2.2⟩

/-- C3 counterexample: the claim states that a negative `faceCount` is
coerced to 0.  In index.js the delta is `parseInt(faceCount) || 0`, and a
negative parse result is truthy, so `faceCount = "-5"` on the fresh open
session decreases its face counter and the global counters from 0 to -5. -/
theorem c3_counterexample :
    (mapGet stOpen.sessions "session_0_r").map
      (fun s => s.faceDetections) = some 0 ∧
    (mapGet ((recordDetection ctxD 10 ⟨some "session_0_r", .str "-5",
        .num 0⟩ stOpen []).2.1).sessions "session_0_r").map
      (fun s => s.faceDetections) = some (-5) ∧
    ((recordDetection ctxD 10 ⟨some "session_0_r", .str "-5", .num 0⟩
      stOpen []).2.1).totalFaceDetections = -5 ∧
    ((recordDetection ctxD 10 ⟨some "session_0_r", .str "-5", .num 0⟩
      stOpen []).2.1).totalDetections = -5 := by
  decide

/-- C3 (amended): the deltas added by `detection/record` are exactly
`parseInt(input) || 0`: a non-numeric input (one that parses to NaN) is
coerced to 0, an absent input defaults to 0, but a negative numeric input
is added as-is — so the counters are integers yet can decrease. -/
theorem c3_detection_deltas (ctx : LogCtx) (now : Nat) (st : Stats)
    (d : LogDir) (sid : String) (session : Session) (fc oc : JVal)
    (hsid : sid ≠ "") (hget : mapGet st.sessions sid = some session) :
    ((recordDetection ctx now ⟨some sid, fc, oc⟩ st d).2.1).totalFaceDetections =
      st.totalFaceDetections + parseIntOr0 (withDefault0 fc) ∧
    ((recordDetection ctx now ⟨some sid, fc, oc⟩ st d).2.1).totalDetections =
      st.totalDetections + parseIntOr0 (withDefault0 fc) +
        parseIntOr0 (withDefault0 oc) ∧
    (mapGet ((recordDetection ctx now ⟨some sid, fc, oc⟩ st d).2.1).sessions
        sid).map (fun s => (s.faceDetections, s.objectDetections)) =
      some (session.faceDetections + parseIntOr0 (withDefault0 fc),
        session.objectDetections + parseIntOr0 (withDefault0 oc)) ∧
    (∀ u : JVal, parseIntJ u = none → parseIntOr0 u = 0) ∧
    parseIntOr0 (withDefault0 .undef) = 0 ∧
    (∀ n : Int, parseIntOr0 (.num n) = n) := by
  have hbe : (sid == "") = false := by simp [hsid]
  have hget' : assocGet st.sessions sid = some session := hget
  refine ⟨?_, ?_, ?_, ?_, rfl, fun n => rfl⟩
  · simp [recordDetection, hbe, hget, hget']
  · simp [recordDetection, hbe, hget, hget']
  · simp [recordDetection, hbe, hget, hget', mapGet, mapSet,
      assocGet_assocSet_self]
  · intro u hu
    simp [parseIntOr0, hu]

/-- Witness for the C3 amended theorem: the non-numeric input "abc" adds
0, the negative input -5 is added as-is. -/
theorem c3_witness :
    ((recordDetection ctxD 10 ⟨some "session_0_r", .str "abc", .num (-5)⟩
      stOpen []).2.1).totalFaceDetections = 0 ∧
    ((recordDetection ctxD 10 ⟨some "session_0_r", .str "abc", .num (-5)⟩
      stOpen []).2.1).totalDetections = -5 := by
  obtain ⟨h1, h2, -⟩ := c3_detection_deltas ctxD 10 stOpen []
    "session_0_r"
    { sessionId := "session_0_r", startTime := 0, faceDetections := 0,
      objectDetections := 0, interactions := 0, filters := [],
      lastActivity := 0 }
    (.str "abc") (.num (-5)) (by decide) (by decide)
  constructor
  · rw [h1]; decide
  · rw [h2]; decide

/-- C4 counterexample: the claim states that every session closed at T
becomes unresolvable at every time at or past T plus the retention delay.
The index.js `session/end` handler (lines 338-370, cited by the claim)
registers no eviction at all: the session `session_0_r` closed at 5000 is
still resolvable (`validateSession` is true) at 65001 > 5000 + 60000 and
even still accepts a detection mutation there. -/
theorem c4_counterexample :
    validateSession stClosed "session_0_r" = true ∧
    (recordDetection ctxD 65001 ⟨some "session_0_r", .num 1, .num 0⟩
      stClosed []).1 = .ok 1 0 1 1 1 ∧
    validateSession (recordDetection ctxD 65001
      ⟨some "session_0_r", .num 1, .num 0⟩ stClosed []).2.1
      "session_0_r" = true := by
  decide

/-- C4 (amended): in server.js, closing a session registers an eviction
timer for `now + 60000`; once any time at or past that deadline is
reached the session resolves neither via `get` nor via `validateSession`,
and neither closing nor eviction changes any global counter (in
particular `totalSessions` is never decremented).  In index.js no
eviction exists: every handler preserves the stored session ids, so a
closed session stays resolvable at all later times there. -/
theorem c4_eviction (ctx : LogCtx) (now : Nat) (st : Stats) (d : LogDir)
    (sid : String) (session : Session) (hsid : sid ≠ "")
    (hget : mapGet st.sessions sid = some session) :
    (endSessionSrv ctx now (some sid) st d).2.2.2 =
      some (sid, now + RETENTION_MS) ∧
    (∀ now2, now + RETENTION_MS ≤ now2 →
      mapGet (processEvictions now2 [(sid, now + RETENTION_MS)]
        (endSessionSrv ctx now (some sid) st d).2.1).sessions sid = none ∧
      validateSession (processEvictions now2 [(sid, now + RETENTION_MS)]
        (endSessionSrv ctx now (some sid) st d).2.1) sid = false ∧
      (processEvictions now2 [(sid, now + RETENTION_MS)]
        (endSessionSrv ctx now (some sid) st d).2.1).totalSessions =
        st.totalSessions ∧
      (processEvictions now2 [(sid, now + RETENTION_MS)]
        (endSessionSrv ctx now (some sid) st d).2.1).totalDetections =
        st.totalDetections ∧
      (processEvictions now2 [(sid, now + RETENTION_MS)]
        (endSessionSrv ctx now (some sid) st d).2.1).totalFaceDetections =
        st.totalFaceDetections ∧
      (processEvictions now2 [(sid, now + RETENTION_MS)]
        (endSessionSrv ctx now (some sid) st d).2.1).totalInteractions =
        st.totalInteractions) ∧
    (∀ (st0 : Stats) (s0 : String),
      (evict s0 st0).totalSessions = st0.totalSessions ∧
      (evict s0 st0).totalDetections = st0.totalDetections ∧
      (evict s0 st0).totalFaceDetections = st0.totalFaceDetections ∧
      (evict s0 st0).totalInteractions = st0.totalInteractions ∧
      (evict s0 st0).serverStartTime = st0.serverStartTime ∧
      (evict s0 st0).lastUpdated = st0.lastUpdated) ∧
    (∀ (ctx2 : LogCtx) (now2 : Nat) (db : DetBody) (ib : IntBody)
       (eb : Option String) (st2 : Stats) (d2 : LogDir) (x : String),
      validateSession st2 x = true →
      validateSession (recordDetection ctx2 now2 db st2 d2).2.1 x =
        true ∧
      validateSession (recordInteraction ctx2 now2 ib st2 d2).2.1 x =
        true ∧
      validateSession (endSession ctx2 now2 eb st2 d2).2.1 x = true) := by
  have hbe : (sid == "") = false := by simp [hsid]
  have hget' : assocGet st.sessions sid = some session := hget
  refine ⟨?_, fun now2 h2 => ?_,
    fun st0 s0 => ⟨rfl, rfl, rfl, rfl, rfl, rfl⟩,
    fun ctx2 now2 db ib eb st2 d2 x hx => ⟨?_, ?_, ?_⟩⟩
  · simp [endSessionSrv, endSession, hbe, hget, hget']
  · simp [endSessionSrv, endSession, hbe, hget, hget', processEvictions,
      h2, evict, validateSession, mapGet, mapHas, mapDelete,
      assocGet_assocDelete_self, assocHas_assocDelete_self]
  · obtain ⟨dsid, fc, oc⟩ := db
    cases dsid with
    | none => exact hx
    | some sid2 =>
      by_cases hs : (sid2 == "") = true
      · simpa [recordDetection, hs] using hx
      · rw [Bool.not_eq_true] at hs
        cases hm : assocGet st2.sessions sid2 with
        | none => simpa [recordDetection, hs, hm, mapGet] using hx
        | some s2 =>
          simp only [recordDetection, hs, Bool.false_eq_true, if_false,
            mapGet, hm, validateSession, mapHas, mapSet] at hx ⊢
          exact assocHas_assocSet_of_has _ _ _ _ hx
  · obtain ⟨isid, w, v⟩ := ib
    cases isid with
    | none => exact hx
    | some sid2 =>
      by_cases hs : (sid2 == "") = true
      · simpa [recordInteraction, hs] using hx
      · rw [Bool.not_eq_true] at hs
        cases hm : assocGet st2.sessions sid2 with
        | none => simpa [recordInteraction, hs, hm, mapGet] using hx
        | some s2 =>
          simp only [recordInteraction, hs, Bool.false_eq_true, if_false,
            mapGet, hm, validateSession, mapHas, mapSet] at hx ⊢
          exact assocHas_assocSet_of_has _ _ _ _ hx
  · cases eb with
    | none => exact hx
    | some sid2 =>
      by_cases hs : (sid2 == "") = true
      · simpa [endSession, hs] using hx
      · rw [Bool.not_eq_true] at hs
        cases hm : assocGet st2.sessions sid2 with
        | none => simpa [endSession, hs, hm, mapGet] using hx
        | some s2 =>
          simp only [endSession, hs, Bool.false_eq_true, if_false,
            mapGet, hm, validateSession, mapHas, mapSet] at hx ⊢
          exact assocHas_assocSet_of_has _ _ _ _ hx

/-- Witness for C4 at the concrete fixture: the session closed at 5000 is
unresolvable at 65000 after the server.js eviction, the counters survive
eviction, and the index.js handlers preserve the stored id. -/
theorem c4_witness :
    (endSessionSrv ctxD 5000 (some "session_0_r") stOpen []).2.2.2 =
      some ("session_0_r", 65000) ∧
    mapGet (processEvictions 65000 [("session_0_r", 65000)]
      (endSessionSrv ctxD 5000 (some "session_0_r") stOpen []).2.1).sessions
      "session_0_r" = none ∧
    (processEvictions 65000 [("session_0_r", 65000)]
      (endSessionSrv ctxD 5000 (some "session_0_r") stOpen []).2.1).totalSessions =
      1 ∧
    validateSession (endSession ctxD 5000 (some "session_0_r") stOpen
      []).2.1 "session_0_r" = true := by
  obtain ⟨h1, h2, -, h5⟩ := c4_eviction ctxD 5000 stOpen [] "session_0_r"
    { sessionId := "session_0_r", startTime := 0, faceDetections := 0,
      objectDetections := 0, interactions := 0, filters := [],
      lastActivity := 0 }
    (by decide) (by decide)
  obtain ⟨h3, -, h4, -⟩ := h2 65000 (by decide)
  refine ⟨h1, h3, h4, ?_⟩
  exact (h5 ctxD 5000 ⟨none, .undef, .undef⟩ ⟨none, none, none⟩
    (some "session_0_r") stOpen [] "session_0_r" (by decide)).2.2

/-- C5 counterexample: the claim states a value is appended exactly when
it is non-empty (and the widget is `filterSelect` and it is new).  The
part_000 interaction handler (src/unnamed/part_000 lines 240-244, cited
by the claim) has no truthiness check on `value`: the empty value is
appended to the filter list of the open session. -/
theorem c5_counterexample :
    (mapGet stOpen.sessions "session_0_r").map (fun s => s.filters) =
      some [] ∧
    (mapGet (part000RecordInteraction 1 (some "session_0_r")
        (some "filterSelect") "" stOpen).2.sessions "session_0_r").map
      (fun s => s.filters) = some [""] := by
  decide

/-- C5 (amended): in the index.js / server.js handler the claim holds as
stated: `value` is appended exactly when `widgetName == "filterSelect"`,
`value` is non-empty and not already present; the filter list of a fresh
session is empty and each call preserves duplicate-freedom, so the list
never holds two equal values.  The part_000 draft lacks the non-emptiness
check and also appends an empty value. -/
theorem c5_filter_set (ctx : LogCtx) (now : Nat) (st : Stats) (d : LogDir)
    (sid : String) (session : Session) (w : Option String)
    (rand : String) (hsid : sid ≠ "")
    (hget : mapGet st.sessions sid = some session) :
    (∀ s : String,
      (w = some "filterSelect" ∧ s ≠ "" ∧ s ∉ session.filters →
        (mapGet (recordInteraction ctx now ⟨some sid, w, some s⟩
            st d).2.1.sessions sid).map (fun x => x.filters) =
          some (session.filters ++ [s])) ∧
      (¬ (w = some "filterSelect" ∧ s ≠ "" ∧ s ∉ session.filters) →
        (mapGet (recordInteraction ctx now ⟨some sid, w, some s⟩
            st d).2.1.sessions sid).map (fun x => x.filters) =
          some session.filters)) ∧
    ((mapGet (recordInteraction ctx now ⟨some sid, w, none⟩
        st d).2.1.sessions sid).map (fun x => x.filters) =
      some session.filters) ∧
    (∀ s : String, session.filters.Nodup →
      ∀ fl, (mapGet (recordInteraction ctx now ⟨some sid, w, some s⟩
          st d).2.1.sessions sid).map (fun x => x.filters) = some fl →
        fl.Nodup) ∧
    ((mapGet (sessionStart ctx now rand st d).2.1.sessions
        ("session_" ++ toString now ++ "_" ++ rand)).map
      (fun x => x.filters) = some []) := by
  have hbe : (sid == "") = false := by simp [hsid]
  have hget' : assocGet st.sessions sid = some session := hget
  refine ⟨fun s => ⟨fun hc => ?_, fun hc => ?_⟩, ?_, fun s hn fl hfl => ?_,
    ?_⟩
  · obtain ⟨hw, hs, hmem⟩ := hc
    simp [recordInteraction, hbe, hget', mapGet, mapSet,
      assocGet_assocSet_self, hw, hs, hmem]
  · simp only [recordInteraction, hbe, Bool.false_eq_true, if_false,
      hget', mapGet, mapSet]
    rw [assocGet_assocSet_self]
    simp only [Option.map_some']
    congr 1
    by_cases hw : w = some "filterSelect"
    · by_cases hs : s = ""
      · simp [hw, hs]
      · have hmem : s ∈ session.filters := by
          by_contra hmem
          exact hc ⟨hw, hs, hmem⟩
        simp [hw, hs, hmem]
    · simp [show (w == some "filterSelect") = false by simp [hw]]
  · simp [recordInteraction, hbe, hget', mapGet, mapSet,
      assocGet_assocSet_self]
  · revert hfl
    simp only [recordInteraction, hbe, Bool.false_eq_true, if_false,
      hget', mapGet, mapSet]
    rw [assocGet_assocSet_self]
    simp only [Option.map_some', Option.some_inj]
    intro hfl
    subst hfl
    by_cases hcond : (w == some "filterSelect" && s != "" &&
        !(session.filters.contains s)) = true
    · rw [if_pos hcond]
      have hmem : s ∉ session.filters := by
        simp only [Bool.and_eq_true, Bool.not_eq_true'] at hcond
        simpa using hcond.2
      simp [List.nodup_append, hn, hmem]
    · rw [if_neg hcond]
      exact hn
  · simp [sessionStart, mapGet, mapSet, assocGet_assocSet_self]

/-- Witness for the C5 amended theorem: appending "blur" once, and the
no-duplicate consequence, at concrete inputs. -/
theorem c5_witness :
    (mapGet (recordInteraction ctxD 1 ⟨some "session_0_r",
        some "filterSelect", some "blur"⟩ stOpen []).2.1.sessions
      "session_0_r").map (fun x => x.filters) = some ["blur"] ∧
    (mapGet (recordInteraction ctxD 1 ⟨some "session_0_r",
        some "filterSelect", some ""⟩ stOpen []).2.1.sessions
      "session_0_r").map (fun x => x.filters) = some [] := by
  obtain ⟨h1, -, -, -⟩ := c5_filter_set ctxD 1 stOpen [] "session_0_r"
    { sessionId := "session_0_r", startTime := 0, faceDetections := 0,
      objectDetections := 0, interactions := 0, filters := [],
      lastActivity := 0 }
    (some "filterSelect") "r" (by decide) (by decide)
  refine ⟨?_, ?_⟩
  · exact (h1 "blur").1 ⟨rfl, by decide, by decide⟩
  · exact (h1 "").2 (by simp)

/-- C6: evaluation of the stats endpoint at the failing input.  After one
session is started at 0 and closed at 5000 (duration 5 s, no active
sessions left), the `avgDuration` field of `GET /api/stats` is 0 — the
code sums `duration || 0` over the *active* sessions, which never carry a
`duration`, and divides by `totalSessions` — while the average duration of
the closed sessions is 5.  The snapshot therefore does not expose the
average duration of the closed sessions that the claim (and the spec)
describe. -/
theorem c6_avgDuration_divergence :
    (getStats 6000 stClosed).avgDuration = 0 ∧
    specAvgDurationOfClosedSessions stClosed = 5 ∧
    (getStats 6000 stClosed).activeSessions = [] ∧
    (getStats 6000 stClosed).totalSessions = 1 ∧
    (getStats 6000 stClosed).avgDetectionsPerSession = 0 := by
  decide

/-- C7 counterexample: the claim states that a file at or above the
10 MiB threshold is rotated before the append.  The code rotates only on
`size > MAX_LOG_FILE_SIZE`: at exactly 10485760 bytes no backup is
created and the entry is appended to the same file, whose size becomes
10485860 — not the size of the single appended entry (100). -/
theorem c7_counterexample :
    (logToFile ⟨true, "2025-01-01", 100⟩ 777 "EV"
        [("EV_2025-01-01.log", 10485760)]).2 =
      [("EV_2025-01-01.log", 10485860)] := by
  decide

/-- C7 (amended): when the current size strictly exceeds the 10 MiB
threshold, the append rotates: the old file is renamed to the timestamped
`.log.backup` name keeping its size, and the freshly created file holds
exactly the single appended entry. -/
theorem c7_rotation_strictly_above (ctx : LogCtx) (now : Nat) (e : String)
    (d : LogDir) (sz : Nat)
    (hs : dirSize d (e ++ "_" ++ ctx.dateStr ++ ".log") = some sz)
    (hgt : MAX_LOG_FILE_SIZE < sz) (hok : ctx.writeOk = true) :
    dirSize (logToFile ctx now e d).2 (e ++ "_" ++ ctx.dateStr ++ ".log") =
      some ctx.entrySize ∧
    dirSize (logToFile ctx now e d).2
      (e ++ "_" ++ ctx.dateStr ++ "_" ++ toString now ++ ".log.backup") =
      some sz := by
  have hne := logName_ne_backupName e ctx.dateStr (toString now)
  have h1 : dirSize
      (dirSet (dirRemove d (e ++ "_" ++ ctx.dateStr ++ ".log"))
        (e ++ "_" ++ ctx.dateStr ++ "_" ++ toString now ++ ".log.backup")
        sz)
      (e ++ "_" ++ ctx.dateStr ++ ".log") = none := by
    unfold dirSize dirSet dirRemove
    rw [assocGet_assocSet_ne _ _ _ _ hne]
    exact assocGet_assocDelete_self _ _
  constructor
  · simp only [logToFile, hs, if_pos hgt, hok, if_true]
    unfold dirSize dirSet at h1 ⊢
    rw [h1]
    simp [assocGet_assocSet_self]
  · simp only [logToFile, hs, if_pos hgt, hok, if_true]
    unfold dirSize dirSet dirRemove
    rw [assocGet_assocSet_ne _ _ _ _ (Ne.symm hne)]
    exact assocGet_assocSet_self _ _ _

/-- Witness for the C7 amended theorem at a concrete directory holding a
file one byte above the threshold. -/
theorem c7_witness :
    dirSize (logToFile ⟨true, "D", 7⟩ 5 "EV" [("EV_D.log", 10485761)]).2
      "EV_D.log" = some 7 ∧
    dirSize (logToFile ⟨true, "D", 7⟩ 5 "EV" [("EV_D.log", 10485761)]).2
      "EV_D_5.log.backup" = some 10485761 := by
  exact c7_rotation_strictly_above ⟨true, "D", 7⟩ 5 "EV"
    [("EV_D.log", 10485761)] 10485761 (by decide) (by decide) rfl

/-- C8 counterexample: the traversal guard of `GET /api/logs/:logFile` is
a plain string-prefix test of the joined path against the resolved root
`/tmp/logs`.  The request `../logsecret/a.log` joins to
`/tmp/logsecret/a.log`, which is outside the log root directory (it does
not start with `/tmp/logs/`) yet passes the prefix test, and its content
is read and returned — contradicting both the AccessDenied answer and the
never-read-outside-the-root guarantee of the claim. -/
theorem c8_counterexample :
    readLogFile [("/tmp/logsecret/a.log", "SECRET")] "../logsecret/a.log" =
      .ok 1 ["SECRET"] ∧
    pathJoin LOGS_DIR "../logsecret/a.log" = "/tmp/logsecret/a.log" ∧
    jsStartsWith "/tmp/logsecret/a.log" (LOGS_DIR ++ "/") = false := by
  decide

/-- C8 (amended): the guard rejects exactly the requests whose joined
path fails the string-prefix test against the resolved root — so
`../../etc/passwd` is denied for every file system; when the prefix test
passes and the joined path does not exist the answer is 404 — in
particular an absolute request such as `/etc/passwd` is joined *under*
the root (`/tmp/logs/etc/passwd`) and yields 404 rather than 403, and a
`..`-path landing in a sibling directory whose absolute path extends the
root string passes the guard and can be read. -/
theorem c8_traversal_guard (fs : FileSys) (name : String) :
    (jsStartsWith (pathJoin LOGS_DIR name) LOGS_DIR = false →
      readLogFile fs name = .denied) ∧
    (jsStartsWith (pathJoin LOGS_DIR name) LOGS_DIR = true →
      fsRead fs (pathJoin LOGS_DIR name) = none →
      readLogFile fs name = .notFound) ∧
    readLogFile fs "../../etc/passwd" = .denied ∧
    (fsRead fs "/tmp/logs/etc/passwd" = none →
      readLogFile fs "/etc/passwd" = .notFound) := by
  refine ⟨fun hg => ?_, fun hg hr => ?_, rfl, fun hr => ?_⟩
  · simp [readLogFile, hg]
  · simp [readLogFile, hg, hr]
  · have hg : jsStartsWith (pathJoin LOGS_DIR "/etc/passwd") LOGS_DIR =
        true := by decide
    have : pathJoin LOGS_DIR "/etc/passwd" = "/tmp/logs/etc/passwd" := by
      decide
    simp [readLogFile, hg, this, hr,
      (by decide : jsStartsWith "/tmp/logs/etc/passwd" LOGS_DIR = true)]

/-- Witness for the C8 amended theorem at concrete inputs: a denied
dot-dot request, a 404 for a missing in-root file, and a 404 (not 403)
for an absolute request. -/
theorem c8_witness :
    readLogFile [] "../../etc/passwd" = .denied ∧
    readLogFile [] "missing.log" = .notFound ∧
    readLogFile [] "/etc/passwd" = .notFound := by
  have h := c8_traversal_guard [] "missing.log"
  exact ⟨h.2.2.1, h.2.1 (by decide) (by decide), h.2.2.2 (by decide)⟩

/-- C9: logging is fire-and-forget.  `logToFile` catches every I/O
failure internally (it is a total function returning `false` on failure),
and for each of the four mutating handlers the response and the resulting
session/global state are identical whether the log write succeeds
(`writeOk = true`) or fails (`writeOk = false`): only the log directory
component can differ. -/
theorem c9_logging_failure_isolated (ctx : LogCtx) (w1 w2 : Bool)
    (now : Nat) (rand : String) (db : DetBody) (ib : IntBody)
    (eb : Option String) (st : Stats) (d : LogDir) :
    (sessionStart { ctx with writeOk := w1 } now rand st d).1 =
      (sessionStart { ctx with writeOk := w2 } now rand st d).1 ∧
    (sessionStart { ctx with writeOk := w1 } now rand st d).2.1 =
      (sessionStart { ctx with writeOk := w2 } now rand st d).2.1 ∧
    (recordDetection { ctx with writeOk := w1 } now db st d).1 =
      (recordDetection { ctx with writeOk := w2 } now db st d).1 ∧
    (recordDetection { ctx with writeOk := w1 } now db st d).2.1 =
      (recordDetection { ctx with writeOk := w2 } now db st d).2.1 ∧
    (recordInteraction { ctx with writeOk := w1 } now ib st d).1 =
      (recordInteraction { ctx with writeOk := w2 } now ib st d).1 ∧
    (recordInteraction { ctx with writeOk := w1 } now ib st d).2.1 =
      (recordInteraction { ctx with writeOk := w2 } now ib st d).2.1 ∧
    (endSession { ctx with writeOk := w1 } now eb st d).1 =
      (endSession { ctx with writeOk := w2 } now eb st d).1 ∧
    (endSession { ctx with writeOk := w1 } now eb st d).2.1 =
      (endSession { ctx with writeOk := w2 } now eb st d).2.1 := by
  obtain ⟨dsid, fc, oc⟩ := db
  obtain ⟨isid, w, v⟩ := ib
  refine ⟨rfl, rfl, ?_, ?_, ?_, ?_, ?_, ?_⟩
  all_goals first
    | · cases dsid with
        | none => rfl
        | some sid =>
          by_cases hs : (sid == "") = true
          · simp [recordDetection, hs]
          · rw [Bool.not_eq_true] at hs
            cases hm : assocGet st.sessions sid <;>
              simp [recordDetection, hs, hm, mapGet]
    | · cases isid with
        | none => rfl
        | some sid =>
          by_cases hs : (sid == "") = true
          · simp [recordInteraction, hs]
          · rw [Bool.not_eq_true] at hs
            cases hm : assocGet st.sessions sid <;>
              simp [recordInteraction, hs, hm, mapGet]
    | · cases eb with
        | none => rfl
        | some sid =>
          by_cases hs : (sid == "") = true
          · simp [endSession, hs]
          · rw [Bool.not_eq_true] at hs
            cases hm : assocGet st.sessions sid <;>
              simp [endSession, hs, hm, mapGet]

/-- C10: the backup files created by the rotation are invisible to the
log endpoints.  A directory entry whose name ends in `.log.backup` does
not end in `.log`, so `GET /api/logs` never lists it, and
`GET /api/logs/:logFile` answers 404 for it (whether it exists or not),
even though the file sits under the log root. -/
theorem c10_backup_files_hidden (fs : FileSys) (name : String)
    (hb : jsEndsWith name ".log.backup" = true)
    (hg : jsStartsWith (pathJoin LOGS_DIR name) LOGS_DIR = true) :
    name ∉ listLogs fs ∧ readLogFile fs name = .notFound := by
  have hlog : jsEndsWith name ".log" = false := backup_excludes_log name hb
  constructor
  · intro hmem
    have h2 := (List.mem_filter.mp hmem).2
    rw [hlog] at h2
    exact Bool.false_ne_true h2
  · cases hr : fsRead fs (pathJoin LOGS_DIR name) <;>
      simp [readLogFile, hg, hr, hlog]

/-- Witness for C10: the concrete existing backup file is neither listed
nor readable. -/
theorem c10_witness :
    fsRead fsC10 "/tmp/logs/DETECTION_RECORD_2025-01-01_5.log.backup" =
      some "x" ∧
    "DETECTION_RECORD_2025-01-01_5.log.backup" ∉ listLogs fsC10 ∧
    readLogFile fsC10 "DETECTION_RECORD_2025-01-01_5.log.backup" =
      .notFound := by
  have h := c10_backup_files_hidden fsC10
    "DETECTION_RECORD_2025-01-01_5.log.backup" (by decide) (by decide)
  exact ⟨by decide, h.1, h.2⟩

end VisionAI
